import Mathlib

/-!
Verification of the TextBox training-orchestration engine
(`textbox/trainer/trainer.py`) against its specification.

The development shallowly embeds the trainer module: Python floats that can
actually occur are modelled by the inductive `PFloat` (rationals together with
the two infinities; NaN can only enter through `PyF.nan`, which `append_loss`
rejects before any mutation, so it never inhabits tracker or trainer state).
Stateful methods become explicit state-passing functions; methods that can
raise return `Option`/`Except`.  External collaborators (the neural model, the
data loaders, the metric evaluators, torch serialisation, the distributed
collective) are abstracted as oracle parameters, exactly at the call sites
where the source delegates to them.  The DDP branches of the source perform
external collective operations and are outside the single-process embedding;
all theorems below are about single-process (DDP = false) sessions.
-/

namespace TextBox

/-- A Python float value as it flows through the trainer: a finite rational,
or one of the two infinities produced by `math.inf` and negation. -/
inductive PFloat where
  | pinf : PFloat
  | ninf : PFloat
  | fin : ℚ → PFloat
deriving DecidableEq

/-- Comparison `a < b` on `PFloat`, matching IEEE comparison on the
non-NaN floats the trainer manipulates. -/
def PFloat.lt : PFloat → PFloat → Bool
  | .ninf, .pinf => true
  | .ninf, .fin _ => true
  | .fin _, .pinf => true
  | .fin a, .fin b => decide (a < b)
  | _, _ => false

/-- `a <= b` on `PFloat` (total order on non-NaN floats). -/
def PFloat.le (a b : PFloat) : Bool := !(PFloat.lt b a)

/-- Unary negation on `PFloat` (`-math.inf` is the other infinity). -/
def PFloat.neg : PFloat → PFloat
  | .pinf => .ninf
  | .ninf => .pinf
  | .fin q => .fin (-q)

/-- Python truthiness of a float: `0.0` is falsy, everything else truthy. -/
def PFloat.truthy : PFloat → Bool
  | .fin q => q != 0
  | _ => true

/-- A raw loss value handed to `append_loss`: either NaN or a finite number
(the `math.isnan` guard is the only place NaN is observable). -/
inductive PyF where
  | nan : PyF
  | fin : ℚ → PyF
deriving DecidableEq

/-- A Python value inside a metric-result container; `_calc_score` keeps only
the members for which `isinstance(x, float)` holds. -/
inductive PyVal where
  | float : ℚ → PyVal
  | int : ℤ → PyVal
  | str : String → PyVal
deriving DecidableEq

/-- A single metric result as stored in `metrics_results`: a keyed mapping,
a collection, a scalar float, or any other object (which `_calc_score`
skips with a warning). -/
inductive MetricResult where
  | dict : List (String × PyVal) → MetricResult
  | coll : List PyVal → MetricResult
  | float : ℚ → MetricResult
  | other : MetricResult
deriving DecidableEq

/-- `isinstance(x, float)` filter used by `_calc_score`. -/
def as_float : PyVal → Option ℚ
  | .float q => some q
  | _ => none

/-- The `float_list` computed for one metric result in `_calc_score`;
`none` models the warn-and-continue branch for unsupported result shapes. -/
def float_list : MetricResult → Option (List ℚ)
  | .dict l => some ((l.map Prod.snd).filterMap as_float)
  | .coll l => some (l.filterMap as_float)
  | .float q => some [q]
  | .other => none

/-- The accumulation loop of `_calc_score` over `metrics_results.items()`:
each metric with a non-empty `float_list` contributes the mean of its floats;
`score` stays `None` until the first contribution. -/
def score_fold : List (String × MetricResult) → Option ℚ → Option ℚ
  | [], score => score
  | (_, result) :: rest, score =>
    match float_list result with
    | none => score_fold rest score
    | some fl =>
      if fl.length ≠ 0 then
        score_fold rest (some (score.getD 0 + fl.sum / (fl.length : ℚ)))
      else
        score_fold rest score

/-- The dictionary `self._is_train`: mode tag of a tracker. -/
def is_train_tag : Bool → String
  | true => "train"
  | false => "valid"

/-- Python `dict` assignment of one key (update in place if present,
else append), preserving insertion order. -/
def dict_set (d : List (String × MetricResult)) (k : String) (v : MetricResult) :
    List (String × MetricResult) :=
  if d.any (fun p => p.1 == k) then
    d.map (fun p => if p.1 == k then (k, v) else p)
  else
    d ++ [(k, v)]

/-- Python `dict.update`: later calls overwrite same-named keys. -/
def dict_update (d upd : List (String × MetricResult)) : List (String × MetricResult) :=
  upd.foldl (fun acc p => dict_set acc p.1 p.2) d

/-- State of `EpochTracker` (`trainer.py`, class `EpochTracker`).  The
dashboard sink is an external observability collaborator and carries no state
the claims depend on; it is omitted.  `metrics_results` is `Option`-valued to
mirror the `None` guards in `_calc_score` and `__getitem__`. -/
structure EpochTracker where
  epoch_idx : Int
  _accumulate_loss : ℚ
  _accumulate_step : Nat
  _loss : Option PFloat
  metrics_results : Option (List (String × MetricResult))
  _score : Option PFloat
  _DDP : Bool
  mode_tag : String
deriving DecidableEq

/-- `EpochTracker.__init__`. -/
def EpochTracker.init (epoch_idx : Int) (DDP : Bool) (train : Bool) : EpochTracker :=
  { epoch_idx := epoch_idx
    _accumulate_loss := 0
    _accumulate_step := 0
    _loss := none
    metrics_results := some []
    _score := none
    _DDP := DDP
    mode_tag := is_train_tag train }

/-- `EpochTracker.append_loss`: raises `ValueError("Value is nan.")` on NaN
before any mutation; the `error` payload is the tracker state at raise time
(unchanged).  Otherwise accumulates into the running sum and step counter. -/
def append_loss (t : EpochTracker) (loss : PyF) : Except EpochTracker EpochTracker :=
  match loss with
  | .nan => .error t
  | .fin q =>
      .ok { t with
        _accumulate_loss := t._accumulate_loss + q
        _accumulate_step := t._accumulate_step + 1 }

/-- Fold `append_loss` over a list of step losses, propagating a raise. -/
def append_all (t : EpochTracker) : List PyF → Except EpochTracker EpochTracker
  | [] => .ok t
  | l :: rest =>
    match append_loss t l with
    | .error t1 => .error t1
    | .ok t1 => append_all t1 rest

/-- `EpochTracker.set_result`: merge a metric-name to result mapping into the
epoch result set.  `metrics_results` is initialised to the empty dict and is
never rebound to `None` anywhere in the source, so the `getD` default is never
consulted on reachable trackers (Python would raise `AttributeError` on a
`None` receiver before reaching the update). -/
def set_result (t : EpochTracker) (results : List (String × MetricResult)) : EpochTracker :=
  { t with metrics_results := some (dict_update (t.metrics_results.getD []) results) }

/-- `EpochTracker._calc_loss`, single-process path: mean of the accumulated
losses, or `math.inf` plus a warning (second component) if no loss was ever
appended.  The `self._DDP` branch all-reduces the scalar across ranks via an
external torch collective and is outside this embedding. -/
def calc_loss (t : EpochTracker) : PFloat × Bool :=
  if t._accumulate_step = 0 then (.pinf, true)
  else (.fin (t._accumulate_loss / (t._accumulate_step : ℚ)), false)

/-- The `loss` property: `if not self._loss: self._loss = self._calc_loss()`.
A falsy cache (`None` or `0.0`) triggers (re)computation; returns the value
together with the tracker carrying the updated cache. -/
def loss_value (t : EpochTracker) : PFloat × EpochTracker :=
  match t._loss with
  | some v =>
    if PFloat.truthy v then (v, t)
    else
      let r := (calc_loss t).1
      (r, { t with _loss := some r })
  | none =>
    let r := (calc_loss t).1
    (r, { t with _loss := some r })

/-- `EpochTracker._calc_score`: `None` only when `metrics_results is None`;
otherwise the summed per-metric means, falling back to the negated reduced
loss when no metric produced any numeric value.  The fallback reads the `loss`
property, so the returned tracker carries its cache update. -/
def calc_score (t : EpochTracker) : Option PFloat × EpochTracker :=
  match t.metrics_results with
  | none => (none, t)
  | some results =>
    match score_fold results none with
    | some q => (some (.fin q), t)
    | none =>
      let l := loss_value t
      (some (PFloat.neg l.1), l.2)

/-- The `score` property: unavailable (returns `None` with a warning) in train
mode; otherwise cached-on-truthy like `loss`. -/
def score_value (t : EpochTracker) : Option PFloat × EpochTracker :=
  if t.mode_tag = is_train_tag true then (none, t)
  else
    match t._score with
    | some v =>
      if PFloat.truthy v then (some v, t)
      else
        let r := calc_score t
        (r.1, { r.2 with _score := r.1 })
    | none =>
      let r := calc_score t
      (r.1, { r.2 with _score := r.1 })

/-- Python `x or d` on an optional integer (`None` and `0` are falsy). -/
def pyOrInt (o : Option Int) (d : Int) : Int :=
  match o with
  | none => d
  | some v => if v = 0 then d else v

/-- Python `bool(x)` on an optional integer. -/
def pyBoolOptInt (o : Option Int) : Bool :=
  match o with
  | none => false
  | some v => v != 0

/-- Python `x or d` on an optional string (`None` and `""` are falsy). -/
def pyOrStr (o : Option String) (d : String) : String :=
  match o with
  | none => d
  | some s => if s = "" then d else s

/-- The resolved evaluation cadence mode (`self.eval_mode`). -/
inductive EvalMode where
  | epoch : EvalMode
  | step : EvalMode
deriving DecidableEq

/-- `Trainer._set_eval_mode`: resolve `(eval_interval, eval_mode)` from the
two configuration inputs.  If both are positive, `eval_step` is ignored with
a warning; if both are non-positive, `eval_epoch` is set to 1 with a
warning; otherwise whichever is positive wins. -/
def set_eval_mode (cfg_eval_epoch cfg_eval_step : Option Int) : Int × EvalMode :=
  let eval_epoch := pyOrInt cfg_eval_epoch 0
  let eval_step := pyOrInt cfg_eval_step 0
  let eval_step := if eval_epoch > 0 ∧ eval_step > 0 then 0 else eval_step
  let eval_epoch := if eval_epoch ≤ 0 ∧ eval_step ≤ 0 then 1 else eval_epoch
  if eval_epoch > 0 then (eval_epoch, EvalMode.epoch) else (eval_step, EvalMode.step)

/-- The cadence guard of `Trainer._valid` (its first two early returns):
given the resolved mode, the interval and the current value of
`self._eval_count`, decide whether a validation pass is due at this call and
return the updated counter.  The counter is incremented only when the invoke
position matches the mode and the interval is positive. -/
def valid_due (eval_mode : EvalMode) (eval_interval : Int) (eval_count : Int)
    (position : EvalMode) : Bool × Int :=
  if position ≠ eval_mode ∨ eval_interval ≤ 0 then (false, eval_count)
  else
    let c := eval_count + 1
    (c % eval_interval == 0, c)

/-- One element of `self.result_list`: `valid_tracker.as_dict()` records the
epoch index, the metric results and the reduced loss; the tracker score is a
function of those, so the summary is abstracted as the pair of the epoch index
and the score the tracker attained. -/
structure ResultEntry where
  epoch_idx : Int
  score : PFloat
deriving DecidableEq

/-- Abstract serialised parameter/optimizer state (named tensors become named
rationals; the claims only require equality of the restored state). -/
abbrev StateDict := List (String × ℚ)

/-- The training-session state owned by `Trainer` (the fields of
`Trainer.__init__` that the orchestration claims are about; purely external
handles such as the model adapter, evaluators, dashboard and tqdm are
abstracted away, and `train_loss_list` only accumulates external loss values). -/
structure TrainerState where
  stopping_step : Option Int
  stopped : Bool
  stopping_count : Int
  start_epoch : Int
  epochs : Int
  epoch_idx : Int
  best_epoch : Int
  best_valid_score : PFloat
  eval_interval : Int
  eval_mode : EvalMode
  eval_count : Int
  result_list : List ResultEntry
  model_params : StateDict
  optimizer_state : StateDict
deriving DecidableEq

/-- `Trainer.__init__` (the session-state part). -/
def trainer_init (stopping_step eval_epoch eval_step : Option Int) (epochs : Int)
    (model_params optimizer_state : StateDict) : TrainerState :=
  let em := set_eval_mode eval_epoch eval_step
  { stopping_step := stopping_step
    stopped := false
    stopping_count := 0
    start_epoch := 0
    epochs := epochs
    epoch_idx := -1
    best_epoch := -1
    best_valid_score := PFloat.ninf
    eval_interval := em.1
    eval_mode := em.2
    eval_count := 0
    result_list := []
    model_params := model_params
    optimizer_state := optimizer_state }

/-- `Trainer._early_stopping`: improvement resets the counter and moves the
best score and best epoch; otherwise the counter is incremented and the stop
flag is `stopping_count > stopping_step`.  The comparison with
`stopping_step` is only ever executed under the `bool(self.stopping_step)`
guard in `_valid`, where the configured value is a nonzero integer, so
`.getD 0` is never the value actually compared on a reachable call. -/
def early_stopping (score : PFloat) (epoch_idx : Int) (st : TrainerState) :
    Bool × TrainerState :=
  if PFloat.lt st.best_valid_score score then
    (false, { st with
      best_valid_score := score
      stopping_count := 0
      best_epoch := epoch_idx })
  else
    (decide (st.stopping_count + 1 > st.stopping_step.getD 0),
     { st with stopping_count := st.stopping_count + 1 })

/-- `Trainer._valid`: cadence check, then the validation sub-procedure.  The
validation epoch itself (model in eval mode, loss streaming, the external
evaluator) is abstracted by `oracle`, which yields the score of the
validation tracker produced by the n-th validation pass; its summary is
appended to `result_list` before the early-stopping check, exactly as in the
source.  `save_checkpoint` is called here in the source; it only touches the
filesystem and is modelled separately. -/
def trainer_valid (oracle : Nat → PFloat) (epoch_idx : Int) (position : EvalMode)
    (st : TrainerState) : Bool × TrainerState :=
  match valid_due st.eval_mode st.eval_interval st.eval_count position with
  | (false, cnt) => (false, { st with eval_count := cnt })
  | (true, cnt) =>
    let score := oracle st.result_list.length
    let st1 := { st with
      eval_count := cnt
      result_list := st.result_list ++ [⟨epoch_idx, score⟩] }
    if pyBoolOptInt st1.stopping_step then early_stopping score epoch_idx st1
    else (false, st1)

/-- The batch loop of `Trainer._train_epoch`: per batch the source zeroes
gradients, computes the loss through the external model adapter, appends it,
backpropagates, clips and steps the optimizer (all external effects), then —
when validation data is present — runs `self.stopped &= self._valid(...)`
at step granularity and breaks out of the remaining batches if
`self.stopped` holds. -/
def train_epoch_go (oracle : Nat → PFloat) (epoch_idx : Int) (has_valid : Bool) :
    Nat → TrainerState → TrainerState
  | 0, st => st
  | n + 1, st =>
    if has_valid then
      let r := trainer_valid oracle epoch_idx EvalMode.step st
      let st1 := { r.2 with stopped := r.2.stopped && r.1 }
      if st1.stopped then st1 else train_epoch_go oracle epoch_idx has_valid n st1
    else
      train_epoch_go oracle epoch_idx has_valid n st

/-- The epoch loop of `Trainer.fit`: for each `epoch_idx` in
`range(start_epoch, epochs)` run a training epoch, then — when validation
data is present — `self.stopped &= self._valid(...)` at epoch granularity
and break if `self.stopped` holds.  Structural recursion on the number of
remaining epochs. -/
def fit_go (oracle : Nat → PFloat) (has_valid : Bool) (num_batches : Nat) :
    Nat → Int → TrainerState → TrainerState
  | 0, _, st => st
  | fuel + 1, epoch_idx, st =>
    let st0 := { st with epoch_idx := epoch_idx }
    let st1 := train_epoch_go oracle epoch_idx has_valid num_batches st0
    if has_valid then
      let r := trainer_valid oracle epoch_idx EvalMode.epoch st1
      let st2 := { r.2 with stopped := r.2.stopped && r.1 }
      if st2.stopped then st2
      else fit_go oracle has_valid num_batches fuel (epoch_idx + 1) st2
    else
      fit_go oracle has_valid num_batches fuel (epoch_idx + 1) st1

/-- `Trainer.fit`, iterating epochs over `range(start_epoch, epochs)`. -/
def fit (oracle : Nat → PFloat) (has_valid : Bool) (num_batches : Nat)
    (st : TrainerState) : TrainerState :=
  fit_go oracle has_valid num_batches (st.epochs - st.start_epoch).toNat st.start_epoch st

/-- The checkpoint record written by `Trainer.save_checkpoint`: the dict with
keys `state_dict`, `optimizer`, `stopping_count`, `best_valid_score`,
`epoch`, `config` (here: the configuration entries `resume_checkpoint`
reads) and `summary`.  The `cur_step` field models the presence of a key of
that name: `save_checkpoint` never writes one, which `Option.none` records. -/
structure Checkpoint where
  state_dict : StateDict
  optimizer : StateDict
  stopping_count : Int
  best_valid_score : PFloat
  epoch : Int
  config_model : String
  config_optimizer : String
  config_seed : Option Int
  summary : ResultEntry
  cur_step : Option Int
deriving DecidableEq

/-- `Trainer.save_checkpoint` (record construction): a warn-and-return no-op
when no validation has ever been performed, otherwise the checkpoint dict
with the most recent validation summary.  Path handling, overwrite semantics
and the best-pointer symlink are filesystem effects outside this record. -/
def save_checkpoint (st : TrainerState) (config_model config_optimizer : String)
    (config_seed : Option Int) : Option Checkpoint :=
  match st.result_list.getLast? with
  | none => none
  | some summary =>
    some { state_dict := st.model_params
           optimizer := st.optimizer_state
           stopping_count := st.stopping_count
           best_valid_score := st.best_valid_score
           epoch := st.epoch_idx
           config_model := config_model
           config_optimizer := config_optimizer
           config_seed := config_seed
           summary := summary
           cur_step := none }

/-- `Trainer.resume_checkpoint`: a missing file is logged and resuming is
skipped with the state untouched.  Otherwise
`self.stopping_count = checkpoint["stopping_count"] or checkpoint["cur_step"]`:
when the saved counter is falsy the absent `cur_step` key is read, which is a
`KeyError` (`none`).  On success the start epoch becomes the saved epoch plus
one and the counter, best score, parameter and optimizer state are restored.
The architecture and optimizer mismatch checks only emit warnings, and the
seeding call is an external side effect. -/
def resume_checkpoint (fs : String → Option Checkpoint) (resume_file : String)
    (st : TrainerState) : Option TrainerState :=
  match fs resume_file with
  | none => some st
  | some checkpoint =>
    let sc : Option Int :=
      if checkpoint.stopping_count ≠ 0 then some checkpoint.stopping_count
      else checkpoint.cur_step
    match sc with
    | none => none
    | some stopping_count =>
      some { st with
        start_epoch := checkpoint.epoch + 1
        stopping_count := stopping_count
        best_valid_score := checkpoint.best_valid_score
        model_params := checkpoint.state_dict
        optimizer_state := checkpoint.optimizer }

/-- The attribute table relevant to generated-text output, as bound by
`Trainer.__init__`: the only text-path attribute it defines is
`saved_text_filename` (joined from the generated-text directory and the run
filename). -/
def trainer_text_attributes (generated_text_dir filename : String) :
    List (String × String) :=
  [("saved_text_filename", generated_text_dir ++ "/" ++ filename)]

/-- Python attribute lookup on the table; `none` is an `AttributeError`. -/
def get_attr (attrs : List (String × String)) (name : String) : Option String :=
  (attrs.find? (fun p => p.1 == name)).map Prod.snd

/-- `Trainer._save_generated_text`: opens `self.saved_text_file + ".txt"` and
writes each generated sample on its own line.  The attribute it reads is
`saved_text_file`; the result is the written file as a (path, contents) pair,
or `none` for the `AttributeError` raised when the attribute is absent. -/
def save_generated_text (attrs : List (String × String)) (generated_corpus : List String) :
    Option (String × String) :=
  match get_attr attrs "saved_text_file" with
  | none => none
  | some f =>
    some (f ++ ".txt", String.join (generated_corpus.map (fun text => text ++ "\n")))

/-- The checkpoint-loading guard of `Trainer.evaluate`: when `load_best_model`
is requested, the checkpoint file (`model_file or self.saved_model_filename`)
must exist, otherwise an error is logged and `None` is returned.  Generation
and metric computation are external (`model.generate`, `evaluator.evaluate`);
`result` stands for their output. -/
def trainer_evaluate (isfile : String → Bool) (saved_model_filename : String)
    (load_best_model : Bool) (model_file : Option String) (result : StateDict) :
    Option StateDict :=
  if load_best_model && !(isfile (pyOrStr model_file saved_model_filename)) then none
  else some result

/-- The operations a client can perform on an `EpochTracker` after
construction; `readLoss` and `readScore` access the cached properties (their
value is discarded, the cache update is kept). -/
inductive TrackerOp where
  | app : PyF → TrackerOp
  | setres : List (String × MetricResult) → TrackerOp
  | readLoss : TrackerOp
  | readScore : TrackerOp

/-- Apply one tracker operation; a raising `append_loss` leaves the tracker
in its pre-raise state. -/
def runOp (t : EpochTracker) : TrackerOp → EpochTracker
  | .app l =>
    match append_loss t l with
    | .ok t1 => t1
    | .error t1 => t1
  | .setres r => set_result t r
  | .readLoss => (loss_value t).2
  | .readScore => (score_value t).2

/-- Apply a sequence of tracker operations. -/
def runOps (t : EpochTracker) (ops : List TrackerOp) : EpochTracker :=
  ops.foldl runOp t

/-- The data-model invariant of claim C8 as amended: either no validation has
improved on the initial `-inf` yet (`best_epoch = -1`), or some recorded
entry of the validation history has epoch index `best_epoch` and attained
exactly `best_valid_score`. -/
def BestInv (st : TrainerState) : Prop :=
  st.best_epoch = -1 ∨
    ∃ r ∈ st.result_list, r.epoch_idx = st.best_epoch ∧ r.score = st.best_valid_score

/-- Validation-score oracle for the claim C1 scenario: the first validation
scores 1, all later ones score 0 (strictly worse). -/
def c1Oracle : Nat → PFloat := fun n => if n = 0 then PFloat.fin 1 else PFloat.fin 0

/-- Session for the claim C1 scenario: 4 epochs, validate every epoch,
patience `stopping_step = 1`. -/
def c1Init : TrainerState := trainer_init (some 1) (some 1) none 4 [] []

/-- The C1 session state after the first two epochs (fuel 2 of the epoch
loop, starting at epoch 0). -/
def c1Mid : TrainerState := fit_go c1Oracle true 0 2 0 c1Init

/-- A session state that has performed one validation (epoch 4, score 2) and
whose last early-stopping check improved, so `stopping_count = 0`. -/
def c2StateZero : TrainerState :=
  { trainer_init (some 3) (some 1) none 5 [("w", 2)] [("m", 5)] with
    epoch_idx := 4
    stopping_count := 0
    best_valid_score := PFloat.fin 2
    result_list := [⟨4, PFloat.fin 2⟩] }

/-- The same session state with a truthy `stopping_count = 3`. -/
def c2StateThree : TrainerState := { c2StateZero with stopping_count := 3 }

/-- A freshly constructed session that resumes from the saved checkpoints. -/
def c2Fresh : TrainerState := trainer_init (some 3) (some 1) none 5 [] []

/-- A validation-mode tracker holding two scalar-float metric results,
3.0 and 1.0. -/
def c4Tracker : EpochTracker :=
  set_result (EpochTracker.init 0 false false)
    [("m1", MetricResult.float 3), ("m2", MetricResult.float 1)]

/-- A fresh session with patience 2 (best score still `-inf`). -/
def c5StateA : TrainerState := trainer_init (some 2) (some 1) none 5 [] []

/-- A fresh session whose patience budget is configured to 0 (disabled). -/
def c5StateB : TrainerState := trainer_init (some 0) (some 1) none 5 [] []

/-- The claim C8 scenario: 2 epochs, validate every 2 epochs, patience 1,
constant validation score 1. -/
def c8Run : TrainerState :=
  fit (fun _ => PFloat.fin 1) true 0 (trainer_init (some 1) (some 2) none 2 [] [])

theorem PFloat.le_refl_self (a : PFloat) : a.le a = true := by
  cases a <;> simp [PFloat.le, PFloat.lt]

theorem PFloat.lt_asymm_bool {a b : PFloat} (h : PFloat.lt a b = true) :
    PFloat.lt b a = false := by
  cases a <;> cases b <;> simp_all [PFloat.lt]
  exact h.le

theorem score_fold_float_map (l : List (String × ℚ)) (a : ℚ) :
    score_fold (l.map (fun p => (p.1, MetricResult.float p.2))) (some a) =
      some (a + (l.map Prod.snd).sum) := by
  induction l generalizing a with
  | nil => simp [score_fold]
  | cons p rest ih => simp [score_fold, float_list, ih, add_assoc]

theorem score_fold_float_map_none (l : List (String × ℚ)) (h : l ≠ []) :
    score_fold (l.map (fun p => (p.1, MetricResult.float p.2))) none =
      some ((l.map Prod.snd).sum) := by
  cases l with
  | nil => exact absurd rfl h
  | cons p rest =>
    simp [score_fold, float_list, score_fold_float_map]

/-- Claim C3 (code bug): every call of `_save_generated_text` on a trainer
initialised by `Trainer.__init__` raises `AttributeError` instead of writing
the generated corpus, because `__init__` binds `saved_text_filename` while
the method reads `self.saved_text_file`; no generated-text file is ever
written, contradicting the claim that the corpus is written one sample per
line once per full evaluation pass. -/
theorem c3_generated_text_attribute_missing
    (generated_text_dir filename : String) (generated_corpus : List String) :
    save_generated_text (trainer_text_attributes generated_text_dir filename)
      generated_corpus = none := rfl

/-- Claim C4 counterexample: a validation tracker whose metric results are
the scalar floats 3.0 and 1.0 has score 4.0 (the sum across metrics), while
the claimed value sum(v)/len(results) would be (3+1)/2 = 2.0. -/
theorem c4_counterexample :
    (score_value c4Tracker).1 = some (PFloat.fin 4) ∧
      PFloat.fin 4 ≠ PFloat.fin ((3 + 1) / 2 : ℚ) := by
  constructor
  · simp [c4Tracker, score_value, set_result, EpochTracker.init, is_train_tag,
      calc_score, dict_update, dict_set, score_fold, float_list, as_float]
    norm_num
  · intro h
    injection h with h
    norm_num at h

/-- Claim C4 as amended: for a validation-mode tracker (score not yet
computed) whose metric results map each name to a scalar float v, `score` is
the SUM of the values sum(v) — each scalar metric contributes its own value
and nothing divides by the number of metrics; and whenever the metric results
produce no numeric value at all (in particular an empty metric set), `score`
falls back to the negated reduced loss `-loss`. -/
theorem c4_amended_score :
    (∀ (t : EpochTracker) (l : List (String × ℚ)),
      t.mode_tag = is_train_tag false →
      t._score = none →
      t.metrics_results = some (l.map (fun p => (p.1, MetricResult.float p.2))) →
      l ≠ [] →
      (score_value t).1 = some (PFloat.fin ((l.map Prod.snd).sum))) ∧
    (∀ (t : EpochTracker) (results : List (String × MetricResult)),
      t.mode_tag = is_train_tag false →
      t._score = none →
      t.metrics_results = some results →
      score_fold results none = none →
      (score_value t).1 = some (PFloat.neg (loss_value t).1)) := by
  constructor
  · intro t l hmode hscore hres hne
    simp [score_value, hmode, is_train_tag, hscore, calc_score, hres,
      score_fold_float_map_none l hne]
  · intro t results hmode hscore hres hfold
    simp [score_value, hmode, is_train_tag, hscore, calc_score, hres, hfold]

/-- Witness for the amended claim C4 at concrete trackers: metric results
m1 = 3.0, m2 = 1.0 give score 3 + 1; an empty metric set gives -loss. -/
theorem c4_amended_score_witness :
    (score_value c4Tracker).1 =
      some (PFloat.fin (([("m1", (3 : ℚ)), ("m2", 1)].map Prod.snd).sum)) ∧
    (score_value (EpochTracker.init 0 false false)).1 =
      some (PFloat.neg (loss_value (EpochTracker.init 0 false false)).1) :=
  ⟨c4_amended_score.1 c4Tracker [("m1", 3), ("m2", 1)] rfl rfl (by decide) (by decide),
   c4_amended_score.2 (EpochTracker.init 0 false false) [] rfl rfl rfl rfl⟩

theorem append_all_fins (qs : List ℚ) : ∀ t : EpochTracker,
    append_all t (qs.map PyF.fin) = Except.ok { t with
      _accumulate_loss := t._accumulate_loss + qs.sum
      _accumulate_step := t._accumulate_step + qs.length } := by
  induction qs with
  | nil => intro t; cases t; simp [append_all]
  | cons q rest ih =>
    intro t
    cases t
    simp [append_all, append_loss, ih, add_assoc]
    omega

/-- Claim C6: appending a NaN-free sequence of losses l1..ln (n ≥ 1) yields
`loss = sum(L)/n`; appending NaN raises (`error`) with the tracker state
unchanged, before any mutation; and reading the loss of a tracker that never
received a loss yields the `+inf` sentinel together with a warning. -/
theorem c6_loss_tracking :
    (∀ (e : Int) (qs : List ℚ), qs ≠ [] →
      ∃ t, append_all (EpochTracker.init e false true) (qs.map PyF.fin) = Except.ok t ∧
        (loss_value t).1 = PFloat.fin (qs.sum / (qs.length : ℚ))) ∧
    (∀ t : EpochTracker, append_loss t PyF.nan = Except.error t) ∧
    (∀ t : EpochTracker, t._accumulate_step = 0 → calc_loss t = (PFloat.pinf, true)) := by
  refine ⟨?_, fun _ => rfl, ?_⟩
  · intro e qs hne
    refine ⟨_, append_all_fins qs (EpochTracker.init e false true), ?_⟩
    have hlen : qs.length ≠ 0 := fun h => hne (List.length_eq_zero.mp h)
    simp [loss_value, EpochTracker.init, calc_loss, hlen]
  · intro t h
    simp [calc_loss, h]

/-- Witness for claim C6 at the loss list [1, 2] (mean 3/2) and a fresh
tracker (loss +inf with a warning). -/
theorem c6_loss_tracking_witness :
    (∃ t, append_all (EpochTracker.init 0 false true) (([1, 2] : List ℚ).map PyF.fin) =
        Except.ok t ∧
      (loss_value t).1 = PFloat.fin (([1, 2] : List ℚ).sum / ((([1, 2] : List ℚ).length : ℚ)))) ∧
    calc_loss (EpochTracker.init 1 false true) = (PFloat.pinf, true) :=
  ⟨c6_loss_tracking.1 0 [1, 2] (by decide), c6_loss_tracking.2.2 _ rfl⟩

/-- Claim C5: the early-stopping check after each validation: on a strict
improvement over the best score it moves best score and best epoch to the
current values, resets the stopping counter to 0 and does not signal stop;
otherwise it increments the counter and signals stop exactly when the counter
strictly exceeds the configured patience budget; and with a patience budget
of zero or unset (`bool(stopping_step)` falsy) a validation pass never
signals stop. -/
theorem c5_early_stopping_behavior :
    (∀ (s : PFloat) (e : Int) (st : TrainerState),
      PFloat.lt st.best_valid_score s = true →
      early_stopping s e st =
        (false, { st with best_valid_score := s, stopping_count := 0, best_epoch := e })) ∧
    (∀ (s : PFloat) (e : Int) (st : TrainerState),
      PFloat.lt st.best_valid_score s = false →
      ((early_stopping s e st).1 = true ↔
        st.stopping_count + 1 > st.stopping_step.getD 0) ∧
      (early_stopping s e st).2 = { st with stopping_count := st.stopping_count + 1 }) ∧
    (∀ (oracle : Nat → PFloat) (e : Int) (pos : EvalMode) (st : TrainerState),
      st.stopping_step = none ∨ st.stopping_step = some 0 →
      (trainer_valid oracle e pos st).1 = false) := by
  refine ⟨?_, ?_, ?_⟩
  · intro s e st h
    simp [early_stopping, h]
  · intro s e st h
    simp [early_stopping, h]
  · intro oracle e pos st h
    unfold trainer_valid
    rcases hd : valid_due st.eval_mode st.eval_interval st.eval_count pos with ⟨b, cnt⟩
    cases b
    · simp
    · rcases h with h | h <;> simp [pyBoolOptInt, h]

/-- Witness for claim C5: a fresh session (best score `-inf`) improves on
score 1; a non-improving score increments the counter per the boundary; a
session with patience 0 never signals stop from a validation pass. -/
theorem c5_early_stopping_witness :
    early_stopping (PFloat.fin 1) 0 c5StateA =
      (false,
        { c5StateA with
          best_valid_score := PFloat.fin 1
          stopping_count := 0
          best_epoch := 0 }) ∧
    ((early_stopping PFloat.ninf 0 c5StateA).1 = true ↔
      c5StateA.stopping_count + 1 > c5StateA.stopping_step.getD 0) ∧
    (trainer_valid (fun _ => PFloat.fin 1) 0 EvalMode.epoch c5StateB).1 = false :=
  ⟨c5_early_stopping_behavior.1 _ _ _ (by decide),
   (c5_early_stopping_behavior.2.1 _ _ _ (by decide)).1,
   c5_early_stopping_behavior.2.2 _ _ _ _ (Or.inr rfl)⟩

/-- Claim C7: cadence resolution and the due check.  Both configured values
non-positive (or unset) resolve to epoch mode with interval 1; `eval_epoch=2,
eval_step=0` resolves to epoch mode with interval 2; a call at a non-matching
position, or with a non-positive interval, returns false and leaves the
counter untouched; a call at the matching position with positive interval
increments the counter and is due exactly when the new counter is a multiple
of the interval — for interval 2 at epoch position, exactly at counts
2, 4, 6, ... -/
theorem c7_eval_cadence :
    (∀ ee es : Option Int, pyOrInt ee 0 ≤ 0 → pyOrInt es 0 ≤ 0 →
      set_eval_mode ee es = (1, EvalMode.epoch)) ∧
    set_eval_mode (some 2) (some 0) = (2, EvalMode.epoch) ∧
    (∀ (m : EvalMode) (iv cnt : Int) (pos : EvalMode),
      pos ≠ m ∨ iv ≤ 0 → valid_due m iv cnt pos = (false, cnt)) ∧
    (∀ (m : EvalMode) (iv cnt : Int) (pos : EvalMode),
      pos = m → 0 < iv → valid_due m iv cnt pos = (((cnt + 1) % iv == 0), cnt + 1)) ∧
    (∀ cnt : Int,
      (valid_due EvalMode.epoch 2 cnt EvalMode.epoch).1 = true ↔ (cnt + 1) % 2 = 0) := by
  refine ⟨?_, by decide, ?_, ?_, ?_⟩
  · intro ee es h1 h2
    simp only [set_eval_mode]
    split_ifs with hA hB hC
    all_goals first | rfl | omega
  · intro m iv cnt pos h
    simp [valid_due, h]
  · intro m iv cnt pos h1 h2
    simp [valid_due, h1]
    omega
  · intro cnt
    simp [valid_due]

/-- Witness for claim C7: unset and zero configuration resolves to
(1, epoch); a step-position call under epoch mode is not due and leaves the
counter at 0; the second epoch-position call under interval 2 is due. -/
theorem c7_eval_cadence_witness :
    set_eval_mode none (some 0) = (1, EvalMode.epoch) ∧
    valid_due EvalMode.epoch 2 0 EvalMode.step = (false, 0) ∧
    valid_due EvalMode.epoch 2 1 EvalMode.epoch = ((((1 : Int) + 1) % 2 == 0), 1 + 1) :=
  ⟨c7_eval_cadence.1 none (some 0) (by decide) (by decide),
   c7_eval_cadence.2.2.1 _ _ _ _ (Or.inl (by decide)),
   c7_eval_cadence.2.2.2.1 _ _ _ _ rfl (by decide)⟩

/-- Claim C9: resuming from a path with no file is non-fatal and a no-op on
the session state (and a fresh session starts at epoch 0), while evaluating
with `load_best_model` against a missing checkpoint file returns `None`
instead of proceeding. -/
theorem c9_missing_checkpoint :
    (∀ (fs : String → Option Checkpoint) (resume_file : String) (st : TrainerState),
      fs resume_file = none → resume_checkpoint fs resume_file st = some st) ∧
    (∀ (ss ee es : Option Int) (ep : Int) (pa op : StateDict),
      (trainer_init ss ee es ep pa op).start_epoch = 0) ∧
    (∀ (isfile : String → Bool) (saved_model_filename : String)
      (model_file : Option String) (result : StateDict),
      isfile (pyOrStr model_file saved_model_filename) = false →
      trainer_evaluate isfile saved_model_filename true model_file result = none) := by
  refine ⟨?_, fun _ _ _ _ _ _ => rfl, ?_⟩
  · intro fs resume_file st h
    simp [resume_checkpoint, h]
  · intro isfile smf mf r h
    simp [trainer_evaluate, h]

/-- Witness for claim C9: an empty filesystem makes resume a no-op on a
fresh session (which starts at epoch 0) and makes evaluate return `None`. -/
theorem c9_missing_checkpoint_witness :
    resume_checkpoint (fun _ => none) "missing.pth" (trainer_init none none none 3 [] []) =
      some (trainer_init none none none 3 [] []) ∧
    (trainer_init none none none 3 [] []).start_epoch = 0 ∧
    trainer_evaluate (fun _ => false) "saved.pth" true none [] = none :=
  ⟨c9_missing_checkpoint.1 _ _ _ rfl,
   c9_missing_checkpoint.2.1 none none none 3 [] [],
   c9_missing_checkpoint.2.2 _ _ _ _ rfl⟩

/-- Claim C1 (code bug): in the 4-epoch session with validation every epoch,
patience 1 and scores 1, 0, 0, 0, the early-stopping check of the epoch-2
validation signals stop (first conjunct), yet the session runs all 4 epochs:
4 validation summaries are recorded, the `stopped` flag never becomes true
and the final epoch index is 3.  The cause is `self.stopped &= self._valid(...)`
in `fit` and `_train_epoch`: with `stopped` initialised `False`, the
conjunction can never latch a `True` signal, so neither the epoch loop nor
the batch loop ever breaks. -/
theorem c1_stop_signal_ignored :
    (trainer_valid c1Oracle 2 EvalMode.epoch { c1Mid with epoch_idx := 2 }).1 = true ∧
    (fit c1Oracle true 0 c1Init).result_list.length = 4 ∧
    (fit c1Oracle true 0 c1Init).stopped = false ∧
    (fit c1Oracle true 0 c1Init).epoch_idx = 3 := by decide

/-- Claim C2 (code bug): saving a checkpoint while `stopping_count = 0` (the
state after any validation that improved the best score) and resuming from
the written record fails: `resume_checkpoint` evaluates
`checkpoint["stopping_count"] or checkpoint["cur_step"]` and the saved record
contains no `cur_step` key, so the lookup is a `KeyError` (first conjunct).
With a nonzero saved counter the round trip does restore the identical
stopping counter, best score, model and optimizer state, and sets the
resumed start epoch to the saved epoch index plus one (second conjunct). -/
theorem c2_checkpoint_roundtrip :
    ((save_checkpoint c2StateZero "gpt2" "adam" none).bind
        (fun ck => resume_checkpoint (fun _ => some ck) "ck.pth" c2Fresh) = none) ∧
    ((save_checkpoint c2StateThree "gpt2" "adam" none).bind
        (fun ck => resume_checkpoint (fun _ => some ck) "ck.pth" c2Fresh) =
      some { c2Fresh with
        start_epoch := 5
        stopping_count := 3
        best_valid_score := PFloat.fin 2
        model_params := [("w", 2)]
        optimizer_state := [("m", 5)] }) := by decide

/-- Claim C8 counterexample: in a 2-epoch session validating every 2 epochs
(patience 1, constant score 1), the session ends with `best_epoch = 1` but
only one entry in the validation history, so `best_epoch` does not index any
position of the ordered history (`result_list[best_epoch]` is out of range):
`best_epoch` records the epoch index of the best validation, not its
position in the history list. -/
theorem c8_best_epoch_counterexample :
    c8Run.best_epoch = 1 ∧ c8Run.result_list.length = 1 ∧
      c8Run.result_list.get? c8Run.best_epoch.toNat = none := by decide

theorem early_stopping_best_mono (s : PFloat) (e : Int) (st : TrainerState) :
    PFloat.le st.best_valid_score (early_stopping s e st).2.best_valid_score = true := by
  unfold early_stopping
  split
  · next h => simp [PFloat.le, PFloat.lt_asymm_bool h]
  · exact PFloat.le_refl_self _

theorem trainer_valid_best_mono (oracle : Nat → PFloat) (e : Int) (pos : EvalMode)
    (st : TrainerState) :
    PFloat.le st.best_valid_score (trainer_valid oracle e pos st).2.best_valid_score
      = true := by
  unfold trainer_valid
  rcases hd : valid_due st.eval_mode st.eval_interval st.eval_count pos with ⟨b, cnt⟩
  cases b
  · simpa using PFloat.le_refl_self st.best_valid_score
  · simp only
    split
    · exact early_stopping_best_mono _ _ _
    · simpa using PFloat.le_refl_self st.best_valid_score

theorem trainer_valid_BestInv (oracle : Nat → PFloat) (e : Int) (pos : EvalMode)
    (st : TrainerState) (h : BestInv st) : BestInv (trainer_valid oracle e pos st).2 := by
  unfold trainer_valid
  rcases hd : valid_due st.eval_mode st.eval_interval st.eval_count pos with ⟨b, cnt⟩
  cases b
  · exact h
  · simp only
    split
    · unfold early_stopping
      split
      · right
        exact ⟨⟨e, oracle st.result_list.length⟩, by simp, rfl, rfl⟩
      · rcases h with h | ⟨r, hr, h1, h2⟩
        · exact Or.inl h
        · exact Or.inr ⟨r, by simp [List.mem_append]; exact Or.inl hr, h1, h2⟩
    · rcases h with h | ⟨r, hr, h1, h2⟩
      · exact Or.inl h
      · exact Or.inr ⟨r, by simp [List.mem_append]; exact Or.inl hr, h1, h2⟩

theorem train_epoch_go_BestInv (oracle : Nat → PFloat) (e : Int) (hv : Bool) :
    ∀ (n : Nat) (st : TrainerState), BestInv st →
      BestInv (train_epoch_go oracle e hv n st) := by
  intro n
  induction n with
  | zero => intro st h; exact h
  | succ n ih =>
    intro st h
    unfold train_epoch_go
    split
    · have h1 : BestInv (trainer_valid oracle e EvalMode.step st).2 :=
        trainer_valid_BestInv oracle e EvalMode.step st h
      dsimp only
      split
      · exact h1
      · exact ih _ h1
    · exact ih st h

theorem fit_go_BestInv (oracle : Nat → PFloat) (hv : Bool) (nb : Nat) :
    ∀ (fuel : Nat) (e : Int) (st : TrainerState), BestInv st →
      BestInv (fit_go oracle hv nb fuel e st) := by
  intro fuel
  induction fuel with
  | zero => intro e st h; exact h
  | succ fuel ih =>
    intro e st h
    unfold fit_go
    have h0 : BestInv ({ st with epoch_idx := e } : TrainerState) := h
    have h1 : BestInv (train_epoch_go oracle e hv nb { st with epoch_idx := e }) :=
      train_epoch_go_BestInv oracle e hv nb _ h0
    split
    · have h2 : BestInv (trainer_valid oracle e EvalMode.epoch
          (train_epoch_go oracle e hv nb { st with epoch_idx := e })).2 :=
        trainer_valid_BestInv oracle e EvalMode.epoch _ h1
      dsimp only
      split
      · exact h2
      · exact ih _ _ h2
    · exact ih _ _ h1

/-- Claim C8 as amended: across every validation pass (hence after every
early-stopping update) `best_valid_score` is monotonically non-decreasing;
and throughout every session, either no validation has improved on the
initial state yet (`best_epoch = -1`) or some entry of the ordered
validation history has epoch index `best_epoch` and recorded score equal to
`best_valid_score` — `best_epoch` identifies the best validation by its
epoch index, not by a position in the history list. -/
theorem c8_best_score_invariant :
    (∀ (oracle : Nat → PFloat) (e : Int) (pos : EvalMode) (st : TrainerState),
      PFloat.le st.best_valid_score (trainer_valid oracle e pos st).2.best_valid_score
        = true) ∧
    (∀ (oracle : Nat → PFloat) (has_valid : Bool) (num_batches : Nat)
      (ss ee es : Option Int) (ep : Int) (pa op : StateDict),
      BestInv (fit oracle has_valid num_batches (trainer_init ss ee es ep pa op))) :=
  ⟨trainer_valid_best_mono,
   fun oracle hv nb _ _ _ _ _ _ =>
     fit_go_BestInv oracle hv nb _ _ _ (Or.inl rfl)⟩

theorem loss_value_snd_preserves (t : EpochTracker) :
    (loss_value t).2.metrics_results = t.metrics_results ∧
      (loss_value t).2.mode_tag = t.mode_tag := by
  unfold loss_value
  rcases hl : t._loss with _ | v
  · exact ⟨rfl, rfl⟩
  · simp only
    split
    · exact ⟨rfl, rfl⟩
    · exact ⟨rfl, rfl⟩

theorem calc_score_snd_preserves (t : EpochTracker) :
    (calc_score t).2.metrics_results = t.metrics_results ∧
      (calc_score t).2.mode_tag = t.mode_tag := by
  unfold calc_score
  rcases hm : t.metrics_results with _ | results
  · exact ⟨hm, rfl⟩
  · simp only
    rcases hf : score_fold results none with _ | q
    · exact ⟨(loss_value_snd_preserves t).1.trans hm, (loss_value_snd_preserves t).2⟩
    · exact ⟨hm, rfl⟩

theorem calc_score_fst_isSome (t : EpochTracker)
    (h : t.metrics_results.isSome = true) : (calc_score t).1.isSome = true := by
  unfold calc_score
  rcases hm : t.metrics_results with _ | results
  · rw [hm] at h; exact absurd h (by simp)
  · simp only
    rcases hf : score_fold results none with _ | q <;> rfl

theorem score_value_fst_isSome (t : EpochTracker)
    (hm : t.metrics_results.isSome = true)
    (ht : t.mode_tag = is_train_tag false) : (score_value t).1.isSome = true := by
  unfold score_value
  rw [if_neg (by rw [ht]; simp [is_train_tag])]
  rcases hs : t._score with _ | v
  · exact calc_score_fst_isSome t hm
  · simp only
    split
    · rfl
    · exact calc_score_fst_isSome t hm

theorem runOp_invariant (t : EpochTracker) (op : TrackerOp)
    (h : t.metrics_results.isSome = true) :
    (runOp t op).metrics_results.isSome = true ∧ (runOp t op).mode_tag = t.mode_tag := by
  cases op with
  | app l => cases l <;> simp [runOp, append_loss, h]
  | setres r => simp [runOp, set_result]
  | readLoss =>
    have hp := loss_value_snd_preserves t
    rw [runOp]
    exact ⟨by rw [hp.1]; exact h, hp.2⟩
  | readScore =>
    have hp := calc_score_snd_preserves t
    rw [runOp]
    unfold score_value
    split
    · exact ⟨h, rfl⟩
    · rcases hs : t._score with _ | v
      · exact ⟨by simp only; rw [hp.1]; exact h, by simp only; rw [hp.2]⟩
      · simp only
        split
        · exact ⟨h, rfl⟩
        · exact ⟨by simp only; rw [hp.1]; exact h, by simp only; rw [hp.2]⟩

theorem runOps_invariant (ops : List TrackerOp) : ∀ t : EpochTracker,
    t.metrics_results.isSome = true →
    (runOps t ops).metrics_results.isSome = true ∧ (runOps t ops).mode_tag = t.mode_tag := by
  induction ops with
  | nil => intro t h; exact ⟨h, rfl⟩
  | cons op rest ih =>
    intro t h
    have h1 := runOp_invariant t op h
    have h2 := ih (runOp t op) h1.1
    exact ⟨h2.1, h2.2.trans h1.2⟩

/-- Claim C10: for every tracker constructed in validation mode and every
sequence of subsequent operations (loss appends, including raising NaN
appends, result merges, property reads), accessing `score` returns an actual
float, never `None`: `metrics_results` is initialised to the empty dict and
only ever updated, so the `None` guard of `_calc_score` is unreachable, and
the `-loss` fallback is always a float value. -/
theorem c10_score_always_some (e : Int) (DDP : Bool) (ops : List TrackerOp) :
    (score_value (runOps (EpochTracker.init e DDP false) ops)).1.isSome = true := by
  have h := runOps_invariant ops (EpochTracker.init e DDP false) rfl
  exact score_value_fst_isSome _ h.1 h.2

end TextBox
